import Mathlib

/-!
Shallow embedding of the CSS selector builder from
`src/06-objects-tasks.js` (class `Builder` and the `cssSelectorBuilder`
facade), together with theorems settling the specification claims.

The mutable JS object `this.selector` is modelled by the `Selector`
structure; each fragment method becomes a function from the current
state to a `FragResult`, which carries either the successful new state
or the thrown message together with the state the builder is left in
after the throw (the JS code calls `resetData()` before every `throw`).
`stringify()` returns a pair: the produced string and the state the
builder is left in afterwards.
-/

/-- State of `this.selector` inside the JS `Builder` class. -/
structure Selector where
  element : String
  id : String
  «class» : List String
  attr : List String
  pseudoClass : List String
  pseudoElement : String
deriving Repr, DecidableEq

/-- The all-empty selector state, as produced by `new Builder({})`
or by `resetData()`. -/
def emptySelector : Selector :=
  { element := "", id := "", «class» := [], attr := [], pseudoClass := [],
    pseudoElement := "" }

/-- Result of one fragment-method call: either the new builder state, or
the thrown error message together with the builder state left behind by
the throw. -/
inductive FragResult where
  | ok (s : Selector)
  | thrown (msg : String) (s : Selector)
deriving Repr, DecidableEq

/-- `arr.join('')` — concatenation of a list of strings. -/
def joinAll : List String → String
  | [] => ""
  | a :: l => a ++ joinAll l

namespace Builder

/-- The order-violation message thrown by the fragment methods. -/
def orderMsg : String :=
  "Selector parts should be arranged in the following order: element, id, class, attribute, pseudo-class, pseudo-element"

/-- The duplicate-violation message thrown by the fragment methods. -/
def dupMsg : String :=
  "Element, id and pseudo-element should not occur more then one time inside the selector"

/-- `Builder.createSelector(selector)`: pushes the element token, then
`#id` when set, the dot-joined class group when non-empty, each attr
wrapped in brackets, the colon-joined pseudo-class group when
non-empty, and `::pseudoElement` when set; joins with `''`. -/
def createSelector (selector : Selector) : String :=
  let arr : List String := [selector.element]
  let arr := if selector.id ≠ "" then arr ++ ["#" ++ selector.id] else arr
  let arr := if selector.«class».length > 0 then
    arr ++ ["." ++ String.intercalate "." selector.«class»] else arr
  let arr := arr ++ selector.attr.map (fun e => "[" ++ e ++ "]")
  let arr := if selector.pseudoClass.length > 0 then
    arr ++ [":" ++ String.intercalate ":" selector.pseudoClass] else arr
  let arr := if selector.pseudoElement ≠ "" then
    arr ++ ["::" ++ selector.pseudoElement] else arr
  joinAll arr

/-- `resetData()`: sets every field of `this.selector` back to empty. -/
def resetData (_s : Selector) : Selector :=
  { element := "", id := "", «class» := [], attr := [], pseudoClass := [],
    pseudoElement := "" }

/-- `stringify()`: returns `createSelector(this.selector)` and leaves the
builder in the state produced by `resetData()`. -/
def stringify (s : Selector) : String × Selector :=
  (createSelector s, resetData s)

/-- `element(value)`: order check against id/class/attr/pseudoClass/
pseudoElement, then duplicate check against element. -/
def element (s : Selector) (value : String) : FragResult :=
  if s.id ≠ "" ∨ s.«class».length > 0 ∨ s.attr.length > 0 ∨
      s.pseudoClass.length > 0 ∨ s.pseudoElement ≠ "" then
    FragResult.thrown orderMsg (resetData s)
  else if s.element ≠ "" then
    FragResult.thrown dupMsg (resetData s)
  else
    FragResult.ok { s with element := value }

/-- `id(value)`: order check against class/attr/pseudoClass/pseudoElement,
then duplicate check against id. -/
def id (s : Selector) (value : String) : FragResult :=
  if s.«class».length > 0 ∨ s.attr.length > 0 ∨ s.pseudoClass.length > 0 ∨
      s.pseudoElement ≠ "" then
    FragResult.thrown orderMsg (resetData s)
  else if s.id ≠ "" then
    FragResult.thrown dupMsg (resetData s)
  else
    FragResult.ok { s with id := value }

/-- `class(value)`: order check against attr/pseudoClass/pseudoElement,
then push onto the class list. -/
def «class» (s : Selector) (value : String) : FragResult :=
  if s.attr.length > 0 ∨ s.pseudoClass.length > 0 ∨ s.pseudoElement ≠ "" then
    FragResult.thrown orderMsg (resetData s)
  else
    FragResult.ok { s with «class» := s.«class» ++ [value] }

/-- `attr(value)`: order check against pseudoClass/pseudoElement, then
push onto the attr list. -/
def attr (s : Selector) (value : String) : FragResult :=
  if s.pseudoClass.length > 0 ∨ s.pseudoElement ≠ "" then
    FragResult.thrown orderMsg (resetData s)
  else
    FragResult.ok { s with attr := s.attr ++ [value] }

/-- `pseudoClass(value)`: order check against pseudoElement, then push
onto the pseudoClass list. -/
def pseudoClass (s : Selector) (value : String) : FragResult :=
  if s.pseudoElement ≠ "" then
    FragResult.thrown orderMsg (resetData s)
  else
    FragResult.ok { s with pseudoClass := s.pseudoClass ++ [value] }

/-- `pseudoElement(value)`: duplicate check against pseudoElement (last
category, no order check), then set pseudoElement. -/
def pseudoElement (s : Selector) (value : String) : FragResult :=
  if s.pseudoElement ≠ "" then
    FragResult.thrown dupMsg (resetData s)
  else
    FragResult.ok { s with pseudoElement := value }

end Builder

/-- A composite produced by `combine`: it wraps the precomputed joined
string; its `stringify` closure only reads it. -/
structure Composite where
  result : String
deriving Repr, DecidableEq

/-- The composite's `stringify()`: returns the captured `result` and
changes nothing. -/
def Composite.stringify (c : Composite) : String × Composite :=
  (c.result, c)

namespace cssSelectorBuilder

/-- `cssSelectorBuilder.element(value)` → `new Builder({ element: value })`. -/
def element (value : String) : Selector :=
  { emptySelector with element := value }

/-- `cssSelectorBuilder.id(value)` → `new Builder({ id: value })`. -/
def id (value : String) : Selector :=
  { emptySelector with id := value }

/-- `cssSelectorBuilder.class(value)` → `new Builder({ class: [value] })`. -/
def «class» (value : String) : Selector :=
  { emptySelector with «class» := [value] }

/-- `cssSelectorBuilder.attr(value)` → `new Builder({ attr: [value] })`. -/
def attr (value : String) : Selector :=
  { emptySelector with attr := [value] }

/-- `cssSelectorBuilder.pseudoClass(value)` → `new Builder({ pseudoClass: [value] })`. -/
def pseudoClass (value : String) : Selector :=
  { emptySelector with pseudoClass := [value] }

/-- `cssSelectorBuilder.pseudoElement(value)` → `new Builder({ pseudoElement: value })`. -/
def pseudoElement (value : String) : Selector :=
  { emptySelector with pseudoElement := value }

/-- `combine(selector1, combinator, selector2)`: stringifies both
operands (returning their post-call states as well) and wraps
`[sel1, combinator, sel2].join(' ')` in a `Composite`. -/
def combine (selector1 : Selector) (combinator : String)
    (selector2 : Selector) : Composite × Selector × Selector :=
  let r1 := Builder.stringify selector1
  let r2 := Builder.stringify selector2
  (⟨String.intercalate " " [r1.1, combinator, r2.1]⟩, r1.2, r2.2)

end cssSelectorBuilder

/-- One fragment call, tagged by category, for reasoning over call
sequences on a builder. -/
inductive Frag where
  | element (v : String)
  | id (v : String)
  | cls (v : String)
  | attr (v : String)
  | pseudoClass (v : String)
  | pseudoElement (v : String)
deriving Repr, DecidableEq

/-- Dispatch one fragment call to the corresponding `Builder` method. -/
def applyFrag (s : Selector) : Frag → FragResult
  | Frag.element v => Builder.element s v
  | Frag.id v => Builder.id s v
  | Frag.cls v => Builder.«class» s v
  | Frag.attr v => Builder.attr s v
  | Frag.pseudoClass v => Builder.pseudoClass s v
  | Frag.pseudoElement v => Builder.pseudoElement s v

/-- Run a sequence of fragment calls, stopping at the first throw. -/
def applyFrags (s : Selector) : List Frag → FragResult
  | [] => FragResult.ok s
  | f :: fs =>
    match applyFrag s f with
    | FragResult.ok s' => applyFrags s' fs
    | FragResult.thrown m s' => FragResult.thrown m s'

/-- Written from the specification text, not the source: the element
token unprefixed (omitted if unset), then `#`+id if set, then the
`.`-prefixed classes joined with `.` if any, then each attr wrapped in
`[` and `]` concatenated directly, then the `:`-prefixed pseudo-classes
joined with `:` if any, then `::`+pseudoElement if set, with no
separators between categories. -/
def specSelectorString (s : Selector) : String :=
  (if s.element ≠ "" then s.element else "") ++
  (if s.id ≠ "" then "#" ++ s.id else "") ++
  (if s.«class» ≠ [] then "." ++ String.intercalate "." s.«class» else "") ++
  joinAll (s.attr.map (fun a => "[" ++ a ++ "]")) ++
  (if s.pseudoClass ≠ [] then ":" ++ String.intercalate ":" s.pseudoClass else "") ++
  (if s.pseudoElement ≠ "" then "::" ++ s.pseudoElement else "")

/-- Repeatedly call `stringify` on a composite, collecting the outputs
and threading the (possibly changed) composite through. -/
def Composite.stringifyN : Composite → Nat → List String
  | _, 0 => []
  | c, n + 1 =>
    let p := Composite.stringify c
    p.1 :: Composite.stringifyN p.2 n

lemma joinAll_append (l₁ l₂ : List String) :
    joinAll (l₁ ++ l₂) = joinAll l₁ ++ joinAll l₂ := by
  induction l₁ with
  | nil => simp [joinAll]
  | cons a l ih => simp [joinAll, ih, String.append_assoc]

lemma intercalate_three (a b c : String) :
    String.intercalate " " [a, b, c] = a ++ " " ++ b ++ " " ++ c := rfl

/-- Every fragment method resets the state to empty before throwing. -/
lemma applyFrag_thrown_empty (s : Selector) (f : Frag) (msg : String)
    (s' : Selector) (h : applyFrag s f = FragResult.thrown msg s') :
    s' = emptySelector := by
  cases f <;>
    simp only [applyFrag, Builder.element, Builder.id, Builder.«class»,
      Builder.attr, Builder.pseudoClass, Builder.pseudoElement] at h <;>
    split at h <;> (try split at h) <;> cases h <;> rfl

/-- `createSelector` computes exactly the category-ordered concatenation
described by the specification, on every selector state. -/
lemma createSelector_eq_spec (s : Selector) :
    Builder.createSelector s = specSelectorString s := by
  obtain ⟨el, i, cs, as, ps, pe⟩ := s
  simp only [Builder.createSelector, specSelectorString]
  by_cases hel : el = "" <;> by_cases hid : i = "" <;>
    by_cases hcs : cs = [] <;> by_cases hps : ps = [] <;>
    by_cases hpe : pe = "" <;>
    simp [hel, hid, hcs, hps, hpe, List.length_pos, joinAll_append, joinAll,
      String.append_assoc]

/-- Repeated composite stringification only replicates the wrapped
string. -/
lemma stringifyN_eq_replicate (c : Composite) (n : Nat) :
    Composite.stringifyN c n = List.replicate n c.result := by
  induction n with
  | zero => rfl
  | succ k ih => simp [Composite.stringifyN, Composite.stringify, List.replicate, ih]

/-- C1: for every builder state reachable by a valid category-ordered
sequence of fragment calls, `stringify()` returns the concatenation, in
the fixed category order, of the element token unprefixed, `#`+id if
set, the `.`-prefixed classes, the bracketed attrs, the `:`-prefixed
pseudo-classes and `::`+pseudoElement, with no separators between
categories; in particular `class('x').class('y').stringify()` returns
`.x.y`. -/
theorem C1_stringify_follows_spec (fs : List Frag) (s : Selector)
    (h : applyFrags emptySelector fs = FragResult.ok s) :
    (Builder.stringify s).1 = specSelectorString s ∧
    Builder.«class» (cssSelectorBuilder.«class» "x") "y" =
      FragResult.ok { emptySelector with «class» := ["x", "y"] } ∧
    (Builder.stringify { emptySelector with «class» := ["x", "y"] }).1 = ".x.y" :=
  ⟨createSelector_eq_spec s, by decide, rfl⟩

theorem C1_witness :
    (Builder.stringify { emptySelector with «class» := ["x", "y"] }).1 =
      specSelectorString { emptySelector with «class» := ["x", "y"] } ∧
    Builder.«class» (cssSelectorBuilder.«class» "x") "y" =
      FragResult.ok { emptySelector with «class» := ["x", "y"] } ∧
    (Builder.stringify { emptySelector with «class» := ["x", "y"] }).1 = ".x.y" :=
  C1_stringify_follows_spec [Frag.cls "x", Frag.cls "y"]
    { emptySelector with «class» := ["x", "y"] } (by decide)

/-- C2: calling a fragment method of an earlier category while any later
category is already populated throws the order-violation error, with the
builder reset; the message names the required order; in particular
`id('main')` followed by `element('div')` fails this way. -/
theorem C2_order_violation_on_earlier_category :
    (∀ s v, (s.id ≠ "" ∨ s.«class» ≠ [] ∨ s.attr ≠ [] ∨ s.pseudoClass ≠ [] ∨
        s.pseudoElement ≠ "") →
      Builder.element s v = FragResult.thrown Builder.orderMsg (Builder.resetData s)) ∧
    (∀ s v, (s.«class» ≠ [] ∨ s.attr ≠ [] ∨ s.pseudoClass ≠ [] ∨ s.pseudoElement ≠ "") →
      Builder.id s v = FragResult.thrown Builder.orderMsg (Builder.resetData s)) ∧
    (∀ s v, (s.attr ≠ [] ∨ s.pseudoClass ≠ [] ∨ s.pseudoElement ≠ "") →
      Builder.«class» s v = FragResult.thrown Builder.orderMsg (Builder.resetData s)) ∧
    (∀ s v, (s.pseudoClass ≠ [] ∨ s.pseudoElement ≠ "") →
      Builder.attr s v = FragResult.thrown Builder.orderMsg (Builder.resetData s)) ∧
    (∀ s v, s.pseudoElement ≠ "" →
      Builder.pseudoClass s v = FragResult.thrown Builder.orderMsg (Builder.resetData s)) ∧
    Builder.element (cssSelectorBuilder.id "main") "div" =
      FragResult.thrown Builder.orderMsg emptySelector ∧
    Builder.orderMsg =
      "Selector parts should be arranged in the following order: element, id, class, attribute, pseudo-class, pseudo-element" := by
  refine ⟨?_, ?_, ?_, ?_, ?_, by decide, rfl⟩ <;>
    intro s v h
  · rcases h with h | h | h | h | h <;> simp [Builder.element, List.length_pos, h]
  · rcases h with h | h | h <;> simp [Builder.id, List.length_pos, h]
  · rcases h with h | h <;> simp [Builder.«class», List.length_pos, h]
  · rcases h with h | h <;> simp [Builder.attr, List.length_pos, h]
  · simp [Builder.pseudoClass, h]

theorem C2_witness :
    Builder.element { emptySelector with id := "m" } "div" =
      FragResult.thrown Builder.orderMsg
        (Builder.resetData { emptySelector with id := "m" }) ∧
    Builder.id { emptySelector with «class» := ["c"] } "i" =
      FragResult.thrown Builder.orderMsg
        (Builder.resetData { emptySelector with «class» := ["c"] }) ∧
    Builder.«class» { emptySelector with attr := ["a"] } "c" =
      FragResult.thrown Builder.orderMsg
        (Builder.resetData { emptySelector with attr := ["a"] }) ∧
    Builder.attr { emptySelector with pseudoClass := ["p"] } "a" =
      FragResult.thrown Builder.orderMsg
        (Builder.resetData { emptySelector with pseudoClass := ["p"] }) ∧
    Builder.pseudoClass { emptySelector with pseudoElement := "e" } "p" =
      FragResult.thrown Builder.orderMsg
        (Builder.resetData { emptySelector with pseudoElement := "e" }) :=
  ⟨C2_order_violation_on_earlier_category.1 _ "div" (Or.inl (by decide)),
   C2_order_violation_on_earlier_category.2.1 _ "i" (Or.inl (by decide)),
   C2_order_violation_on_earlier_category.2.2.1 _ "c" (Or.inl (by decide)),
   C2_order_violation_on_earlier_category.2.2.2.1 _ "a" (Or.inl (by decide)),
   C2_order_violation_on_earlier_category.2.2.2.2.1 _ "p" (by decide)⟩

/-- C3: setting element, id or pseudoElement a second time (when no
later category triggers the order check first) throws the
duplicate-violation error, with the builder reset; the message states
that these categories are singleton; in particular `id('a').id('b')`
fails this way. -/
theorem C3_duplicate_violation_on_second_set :
    (∀ s v, s.id = "" → s.«class» = [] → s.attr = [] → s.pseudoClass = [] →
        s.pseudoElement = "" → s.element ≠ "" →
      Builder.element s v = FragResult.thrown Builder.dupMsg (Builder.resetData s)) ∧
    (∀ s v, s.«class» = [] → s.attr = [] → s.pseudoClass = [] →
        s.pseudoElement = "" → s.id ≠ "" →
      Builder.id s v = FragResult.thrown Builder.dupMsg (Builder.resetData s)) ∧
    (∀ s v, s.pseudoElement ≠ "" →
      Builder.pseudoElement s v = FragResult.thrown Builder.dupMsg (Builder.resetData s)) ∧
    Builder.id (cssSelectorBuilder.id "a") "b" =
      FragResult.thrown Builder.dupMsg emptySelector ∧
    Builder.dupMsg =
      "Element, id and pseudo-element should not occur more then one time inside the selector" := by
  refine ⟨?_, ?_, ?_, by decide, rfl⟩
  · intro s v h1 h2 h3 h4 h5 h6
    simp [Builder.element, h1, h2, h3, h4, h5, h6]
  · intro s v h1 h2 h3 h4 h5
    simp [Builder.id, h1, h2, h3, h4, h5]
  · intro s v h
    simp [Builder.pseudoElement, h]

theorem C3_witness :
    Builder.element { emptySelector with element := "e" } "f" =
      FragResult.thrown Builder.dupMsg
        (Builder.resetData { emptySelector with element := "e" }) ∧
    Builder.id { emptySelector with id := "a" } "b" =
      FragResult.thrown Builder.dupMsg
        (Builder.resetData { emptySelector with id := "a" }) ∧
    Builder.pseudoElement { emptySelector with pseudoElement := "p" } "q" =
      FragResult.thrown Builder.dupMsg
        (Builder.resetData { emptySelector with pseudoElement := "p" }) :=
  ⟨C3_duplicate_violation_on_second_set.1 _ "f" rfl rfl rfl rfl rfl (by decide),
   C3_duplicate_violation_on_second_set.2.1 _ "b" rfl rfl rfl rfl (by decide),
   C3_duplicate_violation_on_second_set.2.2.1 _ "q" (by decide)⟩

/-- C4: every failing fragment call leaves the builder fully empty: the
state carried by the throw is the empty selector. -/
theorem C4_state_reset_on_failure (s : Selector) (f : Frag) (msg : String)
    (s' : Selector) (h : applyFrag s f = FragResult.thrown msg s') :
    s' = emptySelector :=
  applyFrag_thrown_empty s f msg s' h

theorem C4_witness : (emptySelector : Selector) = emptySelector :=
  C4_state_reset_on_failure (cssSelectorBuilder.id "main") (Frag.element "div")
    Builder.orderMsg emptySelector (by decide)

/-- C5: `stringify()` always leaves the builder empty, so a second
`stringify()` with no new fragments returns the empty string. -/
theorem C5_stringify_clears_state (s : Selector) :
    (Builder.stringify s).2 = emptySelector ∧
    (Builder.stringify (Builder.stringify s).2).1 = "" :=
  ⟨rfl, rfl⟩

/-- C6: `combine` stringifies both operands (resetting them) and the
composite's `stringify` is left string, one space, the combinator, one
space, right string — for every combinator value; in particular
`combine(element('div').id('main'), '+', element('table').id('data'))`
stringifies to `div#main + table#data`. -/
theorem C6_combine_single_space_padding (left right : Selector) (c : String) :
    ((cssSelectorBuilder.combine left c right).1.stringify).1 =
      (Builder.stringify left).1 ++ " " ++ c ++ " " ++ (Builder.stringify right).1 ∧
    (cssSelectorBuilder.combine left c right).2.1 = Builder.resetData left ∧
    (cssSelectorBuilder.combine left c right).2.2 = Builder.resetData right ∧
    Builder.id (cssSelectorBuilder.element "div") "main" =
      FragResult.ok { emptySelector with element := "div", id := "main" } ∧
    Builder.id (cssSelectorBuilder.element "table") "data" =
      FragResult.ok { emptySelector with element := "table", id := "data" } ∧
    ((cssSelectorBuilder.combine
        { emptySelector with element := "div", id := "main" } "+"
        { emptySelector with element := "table", id := "data" }).1.stringify).1 =
      "div#main + table#data" :=
  ⟨intercalate_three _ _ _, rfl, rfl, by decide, by decide, rfl⟩

/-- C7: the composite returned by `combine` wraps a precomputed string
and is immutable: its `stringify` changes nothing and returns the same
wrapped string on every one of any number of repeated calls. -/
theorem C7_composite_stringify_pure (l r : Selector) (c : String) (n : Nat) :
    (Composite.stringify (cssSelectorBuilder.combine l c r).1).2 =
      (cssSelectorBuilder.combine l c r).1 ∧
    Composite.stringifyN (cssSelectorBuilder.combine l c r).1 n =
      List.replicate n ((cssSelectorBuilder.combine l c r).1).result :=
  ⟨rfl, stringifyN_eq_replicate _ n⟩

/-- C8: the full valid chain element `a`, id `x`, classes `b`,`c`, attr
`href$=".png"`, pseudo-class `focus`, pseudo-element `before` succeeds
and stringifies to exactly `a#x.b.c[href$=".png"]:focus::before`. -/
theorem C8_full_chain_example :
    applyFrags (cssSelectorBuilder.element "a")
        [Frag.id "x", Frag.cls "b", Frag.cls "c", Frag.attr "href$=\".png\"",
          Frag.pseudoClass "focus", Frag.pseudoElement "before"] =
      FragResult.ok
        { element := "a", id := "x", «class» := ["b", "c"],
          attr := ["href$=\".png\""], pseudoClass := ["focus"],
          pseudoElement := "before" } ∧
    (Builder.stringify
        { element := "a", id := "x", «class» := ["b", "c"],
          attr := ["href$=\".png\""], pseudoClass := ["focus"],
          pseudoElement := "before" }).1 =
      "a#x.b.c[href$=\".png\"]:focus::before" :=
  ⟨by decide, rfl⟩

/-- C9: the empty string is the unset sentinel for the singleton
categories: element, id and pseudoElement throw the duplicate error only
when the stored token of that category is non-empty; in particular after
`element('')` a later `element('x')` succeeds. -/
theorem C9_duplicate_only_for_nonempty_token :
    (∀ s v s', Builder.element s v = FragResult.thrown Builder.dupMsg s' →
      s.element ≠ "") ∧
    (∀ s v s', Builder.id s v = FragResult.thrown Builder.dupMsg s' →
      s.id ≠ "") ∧
    (∀ s v s', Builder.pseudoElement s v = FragResult.thrown Builder.dupMsg s' →
      s.pseudoElement ≠ "") ∧
    Builder.element (cssSelectorBuilder.element "") "x" =
      FragResult.ok { emptySelector with element := "x" } := by
  refine ⟨?_, ?_, ?_, by decide⟩
  · intro s v s' h
    simp only [Builder.element] at h
    split at h
    · injection h with h1 h2
      exact absurd h1 (by decide)
    · split at h
      · assumption
      · cases h
  · intro s v s' h
    simp only [Builder.id] at h
    split at h
    · injection h with h1 h2
      exact absurd h1 (by decide)
    · split at h
      · assumption
      · cases h
  · intro s v s' h
    simp only [Builder.pseudoElement] at h
    split at h
    · assumption
    · cases h

theorem C9_witness :
    ({ emptySelector with element := "a" } : Selector).element ≠ "" :=
  C9_duplicate_only_for_nonempty_token.1 { emptySelector with element := "a" }
    "b" emptySelector (by decide)

/-- C10: a builder whose state was reset — by a successful `stringify`
or by a failing fragment call — behaves exactly like a fresh empty
builder on every subsequent fragment sequence. -/
theorem C10_reset_equals_fresh (s : Selector) (fs : List Frag) :
    applyFrags (Builder.resetData s) fs = applyFrags emptySelector fs ∧
    applyFrags (Builder.stringify s).2 fs = applyFrags emptySelector fs ∧
    ∀ f msg s', applyFrag s f = FragResult.thrown msg s' →
      applyFrags s' fs = applyFrags emptySelector fs := by
  refine ⟨rfl, rfl, ?_⟩
  intro f msg s' h
  rw [applyFrag_thrown_empty s f msg s' h]

theorem C10_witness :
    applyFrags (Builder.resetData { emptySelector with id := "q" })
        [Frag.element "z"] = applyFrags emptySelector [Frag.element "z"] ∧
    applyFrags emptySelector [Frag.element "z"] =
      applyFrags emptySelector [Frag.element "z"] :=
  ⟨(C10_reset_equals_fresh { emptySelector with id := "q" } [Frag.element "z"]).1,
   (C10_reset_equals_fresh { emptySelector with id := "q" } [Frag.element "z"]).2.2
     (Frag.element "w") Builder.orderMsg emptySelector (by decide)⟩
